import Mathlib

/-!
Shallow embedding of the Gemini chat endpoint (src/index.js).

The file models the History Store (load/save/clear/sweep over a directory of
JSON records), the Conversation Session (request assembly from history, query
and inline images), and the Request Handler (the single GET /gemini route),
and proves the spec claims about them.

Modelling choices, each taken from the source:
  - Time is `Nat` (epoch milliseconds, as produced by Date.now()).
  - The file system is a finite association list from path strings to files;
    each file carries its parsed content and its creation time
    (stats.birthtimeMs).  fs.readFile plus JSON.parse is modelled as a lookup
    returning the parsed record, or a `malformed` marker standing for data
    that JSON.parse rejects; fs.unlink of a missing path is the ENOENT
    failure path of the source.
  - Paths are built with a model of Node path.join for an absolute first
    argument: segments are concatenated and normalised (empty and dot
    segments dropped, dot-dot popping the previous segment, at the root
    dropped), exactly the traversal-relevant behaviour of path.join.
  - The external model client is an oracle record with `countTokens` and
    `generateContentStream` fields returning `Except`, standing for a
    resolved or rejected promise; the stream is a list of chunk texts that
    parseResult concatenates.
  - JS string.toLowerCase is modelled per character (identical on ASCII);
    Buffer.from(s).toString(base64) is modelled by UTF-8 encoding the string
    and base64-encoding the bytes.
-/

set_option autoImplicit false

namespace Gemini

/-! ## Strings and paths -/

/-- JS s.toLowerCase(), modelled characterwise. -/
def jsLower (s : String) : String :=
  String.mk (s.data.map Char.toLower)

/-- Split a character list on the slash character (segments of a path). -/
def splitSlash : List Char → List Char → List String
  | [], acc => [String.mk acc.reverse]
  | c :: rest, acc =>
    if c = '/' then String.mk acc.reverse :: splitSlash rest []
    else splitSlash rest (c :: acc)

/-- Join path segments back with slashes. -/
def joinSegs : List String → List Char
  | [] => []
  | [s] => s.data
  | s :: rest => s.data ++ '/' :: joinSegs rest

/-- One step of path normalisation: drop empty and dot segments, let a
dot-dot segment pop the previously accumulated segment (at the root of an
absolute path it is dropped, as Node path.normalize does). -/
def normStep (acc : List String) (seg : String) : List String :=
  if seg = "" ∨ seg = "." then acc
  else if seg = ".." then acc.dropLast
  else acc ++ [seg]

/-- Node path.join(a, b) for an absolute `a`: concatenate the segments of
both arguments and normalise. -/
def joinPath (a b : String) : String :=
  let segs := splitSlash a.data [] ++ splitSlash b.data []
  String.mk ('/' :: joinSegs (segs.foldl normStep []))

/-- Stand-in for __dirname (the directory of index.js; its concrete value is
environment-dependent and irrelevant to every claim). -/
def dirname : String := "/app"

/-- historyDir = path.join(__dirname, 'history')  (src/index.js line 11). -/
def historyDir : String := joinPath dirname "history"

/-- Path of one conversation record:
path.join(historyDir, chatid + '.json')  (src/index.js lines 74 and 104). -/
def historyPath (chatid : String) : String :=
  joinPath historyDir (chatid ++ ".json")

/-! ## Data model and file store -/

/-- One (query, response) pair, stored as a two-element array in the JSON. -/
abbrev Turn := String × String

abbrev ChatHistory := List Turn

/-- Parsed content of a stored file: either data JSON.parse rejects, or a
record of the shape the code writes. -/
inductive StoredData where
  | malformed : StoredData
  | record (history : ChatHistory) (timestamp : Option Nat) : StoredData
deriving DecidableEq, Repr

/-- A file on disk: its parsed content and its creation time
(stats.birthtimeMs). -/
structure FileInfo where
  content : StoredData
  birthtimeMs : Nat
deriving DecidableEq, Repr

/-- The history directory as a finite map from path to file. -/
abbrev Store := List (String × FileInfo)

def lookupFile : Store → String → Option FileInfo
  | [], _ => none
  | (q, fi) :: rest, p => if q = p then some fi else lookupFile rest p

/-- fs.unlink: remove the entry for a path. -/
def eraseFile : Store → String → Store
  | [], _ => []
  | (q, fi) :: rest, p =>
    if q = p then eraseFile rest p else (q, fi) :: eraseFile rest p

/-- fs.writeFile: replace the content of an existing file (keeping its
creation time) or create the file (its creation time is now). -/
def writeFile : Store → String → StoredData → Nat → Store
  | [], p, d, now => [(p, ⟨d, now⟩)]
  | (q, fi) :: rest, p, d, now =>
    if q = p then (q, ⟨d, fi.birthtimeMs⟩) :: rest
    else (q, fi) :: writeFile rest p d now

/-! ## History Store operations (src/index.js lines 37-83) -/

/-- Retention window: 60 * 60 * 1000 ms, hard-coded at lines 61 and 110. -/
def maxAgeMs : Nat := 60 * 60 * 1000

/-- Interval of the background sweep: setInterval(..., 60 * 60 * 1000) at
line 70. -/
def sweepIntervalMs : Nat := 60 * 60 * 1000

/-- loadChatHistoryWithTimestamp (lines 38-46): read and parse the file; any
failure (missing file, unparsable data) is caught and yields
history = [] and timestamp = null. -/
def loadChatHistoryWithTimestamp (store : Store) (p : String) :
    ChatHistory × Option Nat :=
  match lookupFile store p with
  | none => ([], none)
  | some fi =>
    match fi.content with
    | StoredData.malformed => ([], none)
    | StoredData.record h t => (h, t)

/-- saveChatHistoryWithTimestamp (lines 49-52): write
JSON.stringify \x7b history, timestamp: Date.now() \x7d to the path. -/
def saveChatHistoryWithTimestamp (store : Store) (p : String)
    (chatHistory : ChatHistory) (now : Nat) : Store :=
  writeFile store p (StoredData.record chatHistory (some now)) now

/-- Primitive file-system operations, used to state how save writes. -/
inductive FsOp where
  | write (path : String) (data : StoredData)
  | rename (src : String) (dst : String)
deriving DecidableEq, Repr

/-- The sequence of file-system operations save performs: a single direct
fs.writeFile of the serialised record to the final path (line 51). -/
def saveChatHistoryOps (p : String) (chatHistory : ChatHistory) (now : Nat) :
    List FsOp :=
  [FsOp.write p (StoredData.record chatHistory (some now))]

/-- Modelled from the spec: an atomic-replacement write of a target path is
a write to a distinct temporary name followed by a rename of that temporary
name onto the target. -/
def IsAtomicReplacement (target : String) (ops : List FsOp) : Prop :=
  ∃ tmp data, tmp ≠ target ∧ ops = [FsOp.write tmp data, FsOp.rename tmp target]

/-- clearChatHistory (lines 73-83): unlink the record file; on success reply
History cleared, on any unlink failure (including ENOENT when no record
exists, which is not special-cased) reply Error clearing history. -/
def clearChatHistory (store : Store) (chatid : String) : Store × String :=
  let p := historyPath chatid
  match lookupFile store p with
  | some _ => (eraseFile store p, "History cleared")
  | none => (store, "Error clearing history")

/-- deleteOldChatHistoryFiles (lines 55-67): list the directory and delete
every file whose creation time (stats.birthtimeMs) is more than maxAgeMs in
the past. -/
def deleteOldChatHistoryFiles (store : Store) (now : Nat) : Store :=
  store.filter (fun e => !(decide (now - e.2.birthtimeMs > maxAgeMs)))

/-- Modelled from the spec: a sweep that deletes exactly the records whose
stored timestamp field is older than maxAgeMs (files without a parsable
timestamp are kept). -/
def sweepExpiredSpec (store : Store) (now : Nat) : Store :=
  store.filter (fun e =>
    match e.2.content with
    | StoredData.record _ (some t) => !(decide (now - t > maxAgeMs))
    | _ => true)

/-! ## Conversation Session (src/index.js lines 16-35 and 126-133) -/

/-- Base64 alphabet. -/
def base64Chars : List Char :=
  "ABCDEFGHIJKLMNOPQRSTUVWXYZabcdefghijklmnopqrstuvwxyz0123456789+/".data

def b64Char (n : Nat) : Char := base64Chars.getD n 'A'

/-- Standard base64 of a byte list, with padding. -/
def base64Encode : List Nat → String
  | [] => ""
  | [b1] =>
    String.mk [b64Char (b1 / 4), b64Char (b1 % 4 * 16)] ++ "=="
  | [b1, b2] =>
    String.mk [b64Char (b1 / 4), b64Char (b1 % 4 * 16 + b2 / 16),
      b64Char (b2 % 16 * 4)] ++ "="
  | b1 :: b2 :: b3 :: rest =>
    String.mk [b64Char (b1 / 4), b64Char (b1 % 4 * 16 + b2 / 16),
      b64Char (b2 % 16 * 4 + b3 / 64), b64Char (b3 % 64)] ++ base64Encode rest

/-- UTF-8 encoding of one code point. -/
def utf8Bytes (cp : Nat) : List Nat :=
  if cp < 0x80 then [cp]
  else if cp < 0x800 then [0xC0 + cp / 64, 0x80 + cp % 64]
  else if cp < 0x10000 then
    [0xE0 + cp / 4096, 0x80 + cp / 64 % 64, 0x80 + cp % 64]
  else
    [0xF0 + cp / 262144, 0x80 + cp / 4096 % 64, 0x80 + cp / 64 % 64,
      0x80 + cp % 64]

/-- Buffer.from(s).toString(base64): base64 of the UTF-8 bytes of s. -/
def bufferToBase64 (s : String) : String :=
  base64Encode (s.data.flatMap (fun c => utf8Bytes c.toNat))

structure InlineData where
  data : String
  mimeType : String
deriving DecidableEq, Repr

/-- One image Part as built by getImageParts: inline base64 data plus a
1-based index. -/
structure ImagePart where
  inlineData : InlineData
  index : Nat
deriving DecidableEq, Repr

def getImagePartsAux : List String → Nat → List ImagePart
  | [], _ => []
  | u :: rest, index =>
    { inlineData := { data := bufferToBase64 u, mimeType := "image/png" },
      index := index + 1 } :: getImagePartsAux rest (index + 1)

/-- getImageParts (lines 16-26): Object.values(imageUrls).map((url, index) =>
an inlineData part with mimeType image/png and index starting from 1). -/
def getImageParts (imageUrls : List String) : List ImagePart :=
  getImagePartsAux imageUrls 0

/-- One element of the array passed to countTokens and
generateContentStream: either a plain string or an image part. -/
inductive ContentPart where
  | text (s : String)
  | image (p : ImagePart)
deriving DecidableEq, Repr

/-- chatHistory.flatMap(pair => pair) (line 129): each stored [query,
response] pair contributes its two strings in order. -/
def flattenChatHistory (chatHistory : ChatHistory) : List ContentPart :=
  chatHistory.flatMap (fun pair => [ContentPart.text pair.1, ContentPart.text pair.2])

/-- The array [...flattenedChatHistory, query, ...imageParts] passed to both
countTokens (line 130) and generateContentStream (line 133). -/
def buildContents (chatHistory : ChatHistory) (query : String)
    (imageUrls : List String) : List ContentPart :=
  flattenChatHistory chatHistory ++ [ContentPart.text query]
    ++ (getImageParts imageUrls).map ContentPart.image

/-- parseResult (lines 29-35): concatenate the streamed chunk texts in
arrival order. -/
def parseResult (chunks : List String) : String := String.join chunks

/-- The external model client: both calls either resolve or reject. The
stream result is the list of chunk texts. -/
structure GenModel where
  countTokens : List ContentPart → Except String Nat
  generateContentStream : List ContentPart → Except String (List String)

/-! ## Request Handler (src/index.js lines 85-148) -/

/-- An inbound GET /gemini request: query and chatid parameters (absent when
not supplied), and the values of all remaining query parameters in supplied
order (treated as images). -/
structure Req where
  query : Option String
  chatid : Option String
  imageUrls : List String
deriving DecidableEq, Repr

/-- The JSON bodies the handler can send. -/
inductive Resp where
  | clearResp (response : String) (chatid : String)
  | genResp (response : String) (chatid : String) (totalTokens : Nat)
  | errorResp (status : Nat) (error : String)
deriving DecidableEq, Repr

/-- Observable side effects of one request, in order. -/
inductive Effect where
  | fsMkdir
  | fsRead (path : String)
  | fsUnlink (path : String)
  | fsWrite (path : String)
  | callCountTokens
  | callGenerate
deriving DecidableEq, Repr

structure HandlerResult where
  store : Store
  resp : Resp
  effects : List Effect
deriving DecidableEq, Repr

/-- query.toLowerCase().match(^(clear|clear history|clear chat)$) (line 95). -/
def isClearQuery (q : String) : Bool :=
  jsLower q = "clear" || jsLower q = "clear history" || jsLower q = "clear chat"

/-- The guard at line 110: timestamp is truthy (non-null and non-zero) and
Date.now() - timestamp > 60 * 60 * 1000. -/
def expiredTimestamp (ts : Option Nat) (now : Nat) : Bool :=
  match ts with
  | some t => t != 0 && decide (now - t > maxAgeMs)
  | none => false

/-- The GET /gemini handler (lines 85-148), as a function of the model
client oracle, the store, the current time and the request.  Every path of
the source is represented: missing chatid gives the 400; a missing query
makes query.toLowerCase() throw, caught by the outer catch as the 500; a
clear query runs clearChatHistory and answers without touching the model; a
rejection of countTokens or generateContentStream is caught by the outer
catch as the 500 (with no turn saved); otherwise the new turn is appended
and saved and the 200 body carries response, chatid and totalTokens. -/
def geminiHandler (m : GenModel) (store : Store) (now : Nat) (req : Req) :
    HandlerResult :=
  match req.chatid with
  | none => ⟨store, Resp.errorResp 400 "Chat ID (passcode) is required.", []⟩
  | some chatid =>
    if chatid = "" then
      ⟨store, Resp.errorResp 400 "Chat ID (passcode) is required.", []⟩
    else
      match req.query with
      | none => ⟨store, Resp.errorResp 500 "Internal server error.", []⟩
      | some query =>
        if isClearQuery query then
          let cleared := clearChatHistory store chatid
          ⟨cleared.1, Resp.clearResp cleared.2 chatid,
            [Effect.fsUnlink (historyPath chatid)]⟩
        else
          let p := historyPath chatid
          let loaded := loadChatHistoryWithTimestamp store p
          let chatHistory := loaded.1
          let expired := expiredTimestamp loaded.2 now
          let store1 := if expired then eraseFile store p else store
          let effs1 := [Effect.fsMkdir, Effect.fsRead p]
            ++ (if expired then [Effect.fsUnlink p] else [])
          let contents := buildContents chatHistory query req.imageUrls
          match m.countTokens contents with
          | Except.error _ =>
            ⟨store1, Resp.errorResp 500 "Internal server error.",
              effs1 ++ [Effect.callCountTokens]⟩
          | Except.ok totalTokens =>
            match m.generateContentStream contents with
            | Except.error _ =>
              ⟨store1, Resp.errorResp 500 "Internal server error.",
                effs1 ++ [Effect.callCountTokens, Effect.callGenerate]⟩
            | Except.ok chunks =>
              let response := parseResult chunks
              let newHistory := chatHistory ++ [(query, response)]
              let store2 := saveChatHistoryWithTimestamp store1 p newHistory now
              ⟨store2, Resp.genResp response chatid totalTokens,
                effs1 ++ [Effect.callCountTokens, Effect.callGenerate,
                  Effect.fsWrite p]⟩

/-- A model client that always succeeds, counting the content items and
streaming the given response in one chunk; used to run sequences of
successful generate calls. -/
def okModel (response : String) : GenModel :=
  { countTokens := fun contents => Except.ok contents.length,
    generateContentStream := fun _ => Except.ok [response] }

/-- Run a sequence of generate calls on one chatid: each call supplies its
time, its query and the response the model streams for it. -/
def runGenerateCalls (store : Store) (chatid : String) :
    List (Nat × String × String) → Store
  | [] => store
  | (now, query, response) :: rest =>
    runGenerateCalls
      (geminiHandler (okModel response) store now
        ⟨some query, some chatid, []⟩).store
      chatid rest

/-! ## Store lemmas -/

lemma lookupFile_eraseFile (store : Store) (p : String) :
    lookupFile (eraseFile store p) p = none := by
  induction store with
  | nil => rfl
  | cons e rest ih =>
    obtain ⟨q, fi⟩ := e
    by_cases hq : q = p
    · simp [eraseFile, hq, ih]
    · simp [eraseFile, lookupFile, hq, ih]

lemma lookupFile_writeFile_self (store : Store) (p : String) (d : StoredData)
    (now : Nat) :
    ∃ b, lookupFile (writeFile store p d now) p = some ⟨d, b⟩ := by
  induction store with
  | nil => exact ⟨now, by simp [writeFile, lookupFile]⟩
  | cons e rest ih =>
    obtain ⟨q, fi⟩ := e
    by_cases hq : q = p
    · exact ⟨fi.birthtimeMs, by simp [writeFile, lookupFile, hq]⟩
    · obtain ⟨b, hb⟩ := ih
      exact ⟨b, by simp [writeFile, lookupFile, hq, hb]⟩

lemma load_save (store : Store) (p : String) (h : ChatHistory) (now : Nat) :
    loadChatHistoryWithTimestamp (saveChatHistoryWithTimestamp store p h now) p
      = (h, some now) := by
  obtain ⟨b, hb⟩ :=
    lookupFile_writeFile_self store p (StoredData.record h (some now)) now
  simp [loadChatHistoryWithTimestamp, saveChatHistoryWithTimestamp, hb]

lemma load_clear (store : Store) (chatid : String) :
    loadChatHistoryWithTimestamp (clearChatHistory store chatid).1
      (historyPath chatid) = ([], none) := by
  unfold clearChatHistory
  cases hl : lookupFile store (historyPath chatid) with
  | none => simp [loadChatHistoryWithTimestamp, hl]
  | some fi => simp [loadChatHistoryWithTimestamp, hl, lookupFile_eraseFile]

lemma parseResult_single (r : String) : parseResult [r] = r := by
  simp [parseResult, String.join]

/-- Shape of the handler on the generate path: once chatid is non-empty and
the query is not a clear phrase, the result is determined by the loaded
record, the expiry guard and the two oracle calls. -/
lemma geminiHandler_nonclear (m : GenModel) (store : Store) (now : Nat)
    (chatid q : String) (imgs : List String)
    (h1 : chatid ≠ "") (h2 : isClearQuery q = false) :
    geminiHandler m store now ⟨some q, some chatid, imgs⟩ =
      let p := historyPath chatid
      let loaded := loadChatHistoryWithTimestamp store p
      let expired := expiredTimestamp loaded.2 now
      let store1 := if expired then eraseFile store p else store
      let effs1 := [Effect.fsMkdir, Effect.fsRead p]
        ++ (if expired then [Effect.fsUnlink p] else [])
      let contents := buildContents loaded.1 q imgs
      match m.countTokens contents with
      | Except.error _ =>
        ⟨store1, Resp.errorResp 500 "Internal server error.",
          effs1 ++ [Effect.callCountTokens]⟩
      | Except.ok totalTokens =>
        match m.generateContentStream contents with
        | Except.error _ =>
          ⟨store1, Resp.errorResp 500 "Internal server error.",
            effs1 ++ [Effect.callCountTokens, Effect.callGenerate]⟩
        | Except.ok chunks =>
          ⟨saveChatHistoryWithTimestamp store1 p
              (loaded.1 ++ [(q, parseResult chunks)]) now,
            Resp.genResp (parseResult chunks) chatid totalTokens,
            effs1 ++ [Effect.callCountTokens, Effect.callGenerate,
              Effect.fsWrite p]⟩ := by
  simp only [geminiHandler, if_neg h1, h2, Bool.false_eq_true, if_false]

/-! ## Claim theorems -/

/-- A store holding one record for chatid c whose stored timestamp (1 ms) is
far older than the retention window at time c1Now. -/
def c1Store : Store :=
  [(historyPath "c", ⟨StoredData.record [("oldq", "oldr")] (some 1), 1⟩)]

def c1Now : Nat := 1 + maxAgeMs + 1000

/-- C1: on a load that finds an expired record, the file is indeed deleted
(the fsUnlink effect occurs), but the record is NOT treated as absent for
the current request: the model request still contains the two expired
strings (countTokens sees 3 items, not 1), and the record saved after the
new turn still contains the expired turn.  This evaluates the handler at the
failing input of the claim. -/
theorem C1_expired_record_still_used :
    (geminiHandler (okModel "r") c1Store c1Now ⟨some "q", some "c", []⟩).effects
        = [Effect.fsMkdir, Effect.fsRead (historyPath "c"),
           Effect.fsUnlink (historyPath "c"), Effect.callCountTokens,
           Effect.callGenerate, Effect.fsWrite (historyPath "c")]
    ∧ (geminiHandler (okModel "r") c1Store c1Now ⟨some "q", some "c", []⟩).resp
        = Resp.genResp "r" "c" 3
    ∧ (loadChatHistoryWithTimestamp
        (geminiHandler (okModel "r") c1Store c1Now ⟨some "q", some "c", []⟩).store
        (historyPath "c")).1
        = [("oldq", "oldr"), ("q", "r")] := by
  decide

/-- A model client whose countTokens call always rejects and whose
generateContentStream always resolves. -/
def c2Model : GenModel :=
  { countTokens := fun _ => Except.error "boom",
    generateContentStream := fun _ => Except.ok ["resp"] }

/-- C2 counterexample: with a rejecting countTokens, the response is the
500 error (not a token-free success), generateContentStream is never
called, and no turn is committed — refuting the claim at this input. -/
theorem C2_counterexample :
    (geminiHandler c2Model [] 0 ⟨some "q", some "c", []⟩).resp
        = Resp.errorResp 500 "Internal server error."
    ∧ Effect.callGenerate ∉ (geminiHandler c2Model [] 0 ⟨some "q", some "c", []⟩).effects
    ∧ (geminiHandler c2Model [] 0 ⟨some "q", some "c", []⟩).store = [] := by
  decide

/-- C2 amended: a failure of the token-count sub-call ABORTS the generate
flow: the outer catch answers the 500 error, generateContentStream is never
called, nothing is written, and the store is left as it stood after the
expiry check. -/
theorem C2_token_count_failure_aborts (m : GenModel) (store : Store) (now : Nat)
    (chatid q e : String) (imgs : List String)
    (h1 : chatid ≠ "") (h2 : isClearQuery q = false)
    (hc : m.countTokens (buildContents
        (loadChatHistoryWithTimestamp store (historyPath chatid)).1 q imgs)
      = Except.error e) :
    geminiHandler m store now ⟨some q, some chatid, imgs⟩ =
      ⟨if expiredTimestamp
            (loadChatHistoryWithTimestamp store (historyPath chatid)).2 now
          then eraseFile store (historyPath chatid) else store,
        Resp.errorResp 500 "Internal server error.",
        [Effect.fsMkdir, Effect.fsRead (historyPath chatid)]
          ++ (if expiredTimestamp
                (loadChatHistoryWithTimestamp store (historyPath chatid)).2 now
              then [Effect.fsUnlink (historyPath chatid)] else [])
          ++ [Effect.callCountTokens]⟩ := by
  rw [geminiHandler_nonclear m store now chatid q imgs h1 h2]
  simp only [hc]

/-- Witness for C2: the amended theorem applied at the concrete rejecting
client, empty store, time 0, chatid c, query q. -/
theorem C2_token_count_failure_aborts_witness :
    geminiHandler c2Model [] 0 ⟨some "q", some "c", []⟩ =
      ⟨if expiredTimestamp
            (loadChatHistoryWithTimestamp [] (historyPath "c")).2 0
          then eraseFile [] (historyPath "c") else [],
        Resp.errorResp 500 "Internal server error.",
        [Effect.fsMkdir, Effect.fsRead (historyPath "c")]
          ++ (if expiredTimestamp
                (loadChatHistoryWithTimestamp [] (historyPath "c")).2 0
              then [Effect.fsUnlink (historyPath "c")] else [])
          ++ [Effect.callCountTokens]⟩ :=
  C2_token_count_failure_aborts c2Model [] 0 "c" "q" "boom" []
    (by decide) (by decide) rfl

/-- A model client that always resolves; the clear path must never consult
it. -/
def c3Model : GenModel :=
  { countTokens := fun _ => Except.ok 0,
    generateContentStream := fun _ => Except.ok ["resp"] }

/-- C3 counterexample: a clear-history request on an identifier with no
stored record answers Error clearing history, not the History cleared body
the claim requires (fs.unlink rejects with ENOENT and the catch does not
special-case not-found). -/
theorem C3_counterexample :
    (geminiHandler c3Model [] 0 ⟨some "Clear History", some "c", []⟩).resp
        = Resp.clearResp "Error clearing history" "c"
    ∧ Resp.clearResp "Error clearing history" "c"
        ≠ Resp.clearResp "History cleared" "c" := by
  decide

/-- C3 amended: on a clear-history query the handler answers 200 with
History cleared exactly when a record existed (and then deletes it); when no
record exists the unlink failure is reported as Error clearing history (the
not-found case is not special-cased as success).  In both cases the model is
never called. -/
theorem C3_clear_history_response (m : GenModel) (store : Store) (now : Nat)
    (chatid q : String) (imgs : List String)
    (h1 : chatid ≠ "") (h2 : isClearQuery q = true) :
    geminiHandler m store now ⟨some q, some chatid, imgs⟩ =
      ⟨if (lookupFile store (historyPath chatid)).isSome
          then eraseFile store (historyPath chatid) else store,
        Resp.clearResp
          (if (lookupFile store (historyPath chatid)).isSome
            then "History cleared" else "Error clearing history") chatid,
        [Effect.fsUnlink (historyPath chatid)]⟩ := by
  simp only [geminiHandler, if_neg h1, h2, if_true, clearChatHistory]
  cases hl : lookupFile store (historyPath chatid) <;> simp [hl]

/-- Witness for C3: the amended theorem applied at a store holding a record
for chatid c and the clear query CLEAR. -/
theorem C3_clear_history_response_witness :
    geminiHandler c3Model
        [(historyPath "c", ⟨StoredData.record [("a", "b")] (some 1), 1⟩)] 0
        ⟨some "CLEAR", some "c", []⟩ =
      ⟨if (lookupFile
            [(historyPath "c", ⟨StoredData.record [("a", "b")] (some 1), 1⟩)]
            (historyPath "c")).isSome
          then eraseFile
            [(historyPath "c", ⟨StoredData.record [("a", "b")] (some 1), 1⟩)]
            (historyPath "c")
          else [(historyPath "c", ⟨StoredData.record [("a", "b")] (some 1), 1⟩)],
        Resp.clearResp
          (if (lookupFile
                [(historyPath "c", ⟨StoredData.record [("a", "b")] (some 1), 1⟩)]
                (historyPath "c")).isSome
            then "History cleared" else "Error clearing history") "c",
        [Effect.fsUnlink (historyPath "c")]⟩ :=
  C3_clear_history_response c3Model
    [(historyPath "c", ⟨StoredData.record [("a", "b")] (some 1), 1⟩)] 0
    "c" "CLEAR" [] (by decide) (by decide)

def c4Now : Nat := maxAgeMs * 10

/-- A file whose stored timestamp field (1 ms) is far older than the
retention window but whose creation time is the current instant. -/
def c4Store : Store := [("a.json", ⟨StoredData.record [] (some 1), c4Now⟩)]

/-- C4 counterexample: the sweep keeps a file whose stored timestamp field
is ancient because its creation time is fresh — so the sweep does not delete
exactly the records whose stored timestamp field is older than maxAgeMs. -/
theorem C4_counterexample :
    deleteOldChatHistoryFiles c4Store c4Now ≠ sweepExpiredSpec c4Store c4Now
    ∧ deleteOldChatHistoryFiles c4Store c4Now = c4Store
    ∧ sweepExpiredSpec c4Store c4Now = [] := by
  decide

/-- C4 amended: the sweep enumerates all files and deletes exactly those
whose CREATION time (stats.birthtimeMs) is more than maxAgeMs in the past —
not those whose stored timestamp field is — it runs every maxAgeMs, and each
file is kept or deleted independently of the others (the sweep distributes
over concatenation of the directory listing). -/
theorem C4_sweep_uses_birthtime (store s2 : Store) (now : Nat)
    (f : String × FileInfo) :
    (f ∈ deleteOldChatHistoryFiles store now
      ↔ f ∈ store ∧ now - f.2.birthtimeMs ≤ maxAgeMs)
    ∧ deleteOldChatHistoryFiles (store ++ s2) now
        = deleteOldChatHistoryFiles store now ++ deleteOldChatHistoryFiles s2 now
    ∧ sweepIntervalMs = maxAgeMs := by
  refine ⟨?_, ?_, rfl⟩
  · simp [deleteOldChatHistoryFiles, List.mem_filter, Nat.not_lt]
  · simp [deleteOldChatHistoryFiles, List.filter_append]

/-- C5 counterexample: the operations save performs on the file system are a
single direct write of the record to the final path — not a write to a
temporary name followed by an atomic rename (nor any two-step replacement),
shown here at the record path for chatid a, an empty history and time 5. -/
theorem C5_counterexample :
    ¬ IsAtomicReplacement (historyPath "a")
        (saveChatHistoryOps (historyPath "a") [] 5) := by
  rintro ⟨tmp, d, hne, heq⟩
  simp [saveChatHistoryOps] at heq

/-- C5 amended: save fully replaces any prior record content — a load right
after it returns exactly the turns and timestamp just written, whatever was
stored before — but it does so by one direct fs.writeFile to the final path,
with no temporary name and no rename, so no atomic-replacement mechanism
shields a concurrent reader from a partially written file. -/
theorem C5_save_replaces_by_direct_write (store : Store) (p : String)
    (h : ChatHistory) (now : Nat) :
    loadChatHistoryWithTimestamp (saveChatHistoryWithTimestamp store p h now) p
        = (h, some now)
    ∧ saveChatHistoryOps p h now
        = [FsOp.write p (StoredData.record h (some now))] :=
  ⟨load_save store p h now, rfl⟩

/-- C6: a request whose chatid is absent or empty is answered 400 with the
exact error body, the store is unchanged, and the effect list is empty — no
file read, write or delete and no model call, and neither the clear nor the
generate flow runs. -/
theorem C6_missing_chatid_rejected (m : GenModel) (store : Store) (now : Nat)
    (q : Option String) (imgs : List String) :
    geminiHandler m store now ⟨q, none, imgs⟩
        = ⟨store, Resp.errorResp 400 "Chat ID (passcode) is required.", []⟩
    ∧ geminiHandler m store now ⟨q, some "", imgs⟩
        = ⟨store, Resp.errorResp 400 "Chat ID (passcode) is required.", []⟩ :=
  ⟨rfl, rfl⟩

/-- C7: load is total and returns the empty record (no turns, no timestamp)
whenever the file is absent (in particular right after clear, and in the
empty store) or holds data JSON.parse rejects. -/
theorem C7_load_never_fails (store : Store) (chatid p : String) (bt : Nat) :
    loadChatHistoryWithTimestamp (clearChatHistory store chatid).1
        (historyPath chatid) = ([], none)
    ∧ loadChatHistoryWithTimestamp (eraseFile store p) p = ([], none)
    ∧ loadChatHistoryWithTimestamp (writeFile store p StoredData.malformed bt) p
        = ([], none)
    ∧ loadChatHistoryWithTimestamp ([] : Store) p = ([], none) := by
  refine ⟨load_clear store chatid, ?_, ?_, rfl⟩
  · simp [loadChatHistoryWithTimestamp, lookupFile_eraseFile]
  · obtain ⟨b, hb⟩ :=
      lookupFile_writeFile_self store p StoredData.malformed bt
    simp [loadChatHistoryWithTimestamp, hb]

lemma getImagePartsAux_enumFrom (imgs : List String) (k : Nat) :
    getImagePartsAux imgs k = (List.enumFrom k imgs).map (fun pr =>
      { inlineData := { data := bufferToBase64 pr.2, mimeType := "image/png" },
        index := pr.1 + 1 }) := by
  induction imgs generalizing k with
  | nil => rfl
  | cons u rest ih => simp [getImagePartsAux, List.enumFrom, ih]

/-- C8: the model request is the flattened stored turns (each turn its query
then its response, in order), then the new query, then exactly one image
part per supplied image, in supplied order, the i-th carrying index i+1,
base64 data and the image/png content type. -/
theorem C8_build_request_layout (chatHistory : ChatHistory) (q : String)
    (imgs : List String) :
    buildContents chatHistory q imgs
        = flattenChatHistory chatHistory ++ [ContentPart.text q]
          ++ (getImageParts imgs).map ContentPart.image
    ∧ getImageParts imgs
        = imgs.enum.map (fun pr =>
            { inlineData :=
                { data := bufferToBase64 pr.2, mimeType := "image/png" },
              index := pr.1 + 1 })
    ∧ flattenChatHistory chatHistory
        = (chatHistory.map
            (fun t => [ContentPart.text t.1, ContentPart.text t.2])).flatten := by
  refine ⟨rfl, ?_, ?_⟩
  · simpa [getImageParts, List.enum] using getImagePartsAux_enumFrom imgs 0
  · simp [flattenChatHistory, List.flatMap]

/-- C10: the chatid is spliced into the record path unsanitised, so a chatid
with a dot-dot segment escapes the history directory (and is genuinely
deleted there by the clear flow), and two distinct chatids can denote the
same file. -/
theorem C10_unsanitised_chatid_path :
    historyPath "../evil" = "/app/evil.json"
    ∧ ¬ ((historyDir ++ "/").data <+: (historyPath "../evil").data)
    ∧ historyPath "./a" = historyPath "a"
    ∧ ("./a" : String) ≠ "a"
    ∧ (clearChatHistory
        [(historyPath "../evil", ⟨StoredData.record [] (some 1), 1⟩)]
        "../evil").1 = [] := by
  decide

lemma runGenerateCalls_load (chatid : String) (h1 : chatid ≠ "") :
    ∀ (calls : List (Nat × String × String)),
      (∀ c ∈ calls, isClearQuery c.2.1 = false) →
      ∀ (store : Store) (hist : ChatHistory) (ts : Option Nat),
        loadChatHistoryWithTimestamp store (historyPath chatid) = (hist, ts) →
        (loadChatHistoryWithTimestamp (runGenerateCalls store chatid calls)
          (historyPath chatid)).1
          = hist ++ calls.map (fun c => (c.2.1, c.2.2)) := by
  intro calls
  induction calls with
  | nil =>
    intro _ store hist ts hload
    simp [runGenerateCalls, hload]
  | cons c rest ih =>
    intro hc store hist ts hload
    obtain ⟨now, q, r⟩ := c
    have hq : isClearQuery q = false := hc _ (List.mem_cons_self _ _)
    have hrest : ∀ d ∈ rest, isClearQuery d.2.1 = false :=
      fun d hd => hc d (List.mem_cons_of_mem _ hd)
    have hstep := geminiHandler_nonclear (okModel r) store now chatid q [] h1 hq
    simp only [okModel, hload] at hstep
    have hload2 := load_save
      (if expiredTimestamp ts now then eraseFile store (historyPath chatid)
        else store)
      (historyPath chatid) (hist ++ [(q, parseResult [r])]) now
    simp only [runGenerateCalls, okModel]
    rw [hstep]
    dsimp only
    rw [ih hrest _ (hist ++ [(q, parseResult [r])]) (some now) hload2]
    simp [parseResult_single]

/-- C9: starting from an identifier with no stored record, a sequence of N
successful generate calls leaves exactly the N (query, response) turns of
those calls, in call order, as the loaded history; and when the model call
rejects instead, the store is unchanged — no partial turn is ever
persisted. -/
theorem C9_turns_accumulate (chatid : String) (h1 : chatid ≠ "")
    (calls : List (Nat × String × String))
    (hc : ∀ c ∈ calls, isClearQuery c.2.1 = false)
    (store : Store) (h0 : lookupFile store (historyPath chatid) = none) :
    ((loadChatHistoryWithTimestamp (runGenerateCalls store chatid calls)
        (historyPath chatid)).1 = calls.map (fun c => (c.2.1, c.2.2)))
    ∧ (∀ (m : GenModel) (now : Nat) (q : String) (imgs : List String)
        (e : String),
        isClearQuery q = false →
        m.generateContentStream (buildContents
            (loadChatHistoryWithTimestamp store (historyPath chatid)).1 q imgs)
          = Except.error e →
        (geminiHandler m store now ⟨some q, some chatid, imgs⟩).store
          = store) := by
  have hload0 : loadChatHistoryWithTimestamp store (historyPath chatid)
      = ([], none) := by
    simp [loadChatHistoryWithTimestamp, h0]
  constructor
  · simpa using runGenerateCalls_load chatid h1 calls hc store [] none hload0
  · intro m now q imgs e hq hgen
    have hstep := geminiHandler_nonclear m store now chatid q imgs h1 hq
    simp only [hload0] at hstep hgen
    cases hct : m.countTokens (buildContents [] q imgs) with
    | error e2 => rw [hstep]; simp [hct, expiredTimestamp]
    | ok t => rw [hstep]; simp [hct, hgen, expiredTimestamp]

/-- Witness for C9: two successful calls on the fresh identifier c leave
exactly those two turns, in call order. -/
theorem C9_turns_accumulate_witness :
    (loadChatHistoryWithTimestamp
        (runGenerateCalls [] "c" [(10, "hi", "yo"), (20, "how", "fine")])
        (historyPath "c")).1 = [("hi", "yo"), ("how", "fine")] :=
  (C9_turns_accumulate "c" (by decide) [(10, "hi", "yo"), (20, "how", "fine")]
    (by decide) [] rfl).1

end Gemini
